import Mathlib

/-!
Verification development for the shopify-etl daily pipeline.

The Python sources are shallowly embedded as pure Lean functions:
timestamps become integers (seconds; ISO-8601 strings compared
lexicographically are order-isomorphic to their instants), database
tables become lists or finite maps threaded through the functions,
exceptions become `Except`, and the external collaborators (GraphQL
endpoint, Postgres, SQL files, Power BI) become explicit environment
records whose outcomes the theorems quantify over.
-/

namespace ShopifyEtl

/-- Timestamps are modelled as whole seconds. -/
abbrev Timestamp := Int

/-- One day, in the timestamp unit (`timedelta(days=1)`). -/
def SECONDS_PER_DAY : Int := 86400

/-! ## Run records (the `etl_run_log` table of `daily_scheduler.py`) -/

/-- One row of `etl_run_log`: identity, lifecycle status, staging/merge
flags, high-water mark and diagnostic note. -/
structure RunRecord where
  run_id : Nat
  store_name : String
  entity_name : String
  status : String
  staging_success : Option Bool
  merge_success : Option Bool
  source_updated_at : Option Timestamp
  notes : Option String
deriving DecidableEq

/-- Source records coming back from the extractor: the `updatedAt`
field drives the watermark, the payload is opaque. -/
structure SrcRec where
  updatedAt : Option Timestamp
  payload : Nat
deriving DecidableEq

/-- The persistent state visible to the scheduler: the run log, the id
sequence backing `RETURNING id`, and the per-store staging tables. -/
structure DB where
  runLog : List RunRecord
  nextId : Nat
  tables : String → List SrcRec

/-- An UPDATE ... WHERE id = run_id over the run log. -/
def update_run (log : List RunRecord) (id : Nat) (f : RunRecord → RunRecord) : List RunRecord :=
  log.map (fun r => if r.run_id = id then f r else r)

/-- Fresh RUNNING row inserted by `log_start`. -/
def blankRecord (id : Nat) (store entity : String) : RunRecord :=
  { run_id := id, store_name := store, entity_name := entity, status := "RUNNING",
    staging_success := none, merge_success := none, source_updated_at := none, notes := none }

/-- `log_start`: INSERT a RUNNING row, RETURNING id (the id returned is
`db.nextId`). -/
def log_start (db : DB) (store entity : String) : DB :=
  { db with runLog := db.runLog ++ [blankRecord db.nextId store entity],
            nextId := db.nextId + 1 }

/-- `log_staging_success`: SET staging_success = TRUE, source_updated_at = mark. -/
def log_staging_success (db : DB) (run_id : Nat) (mark : Option Timestamp) : DB :=
  { db with runLog := (update_run db.runLog run_id
      (fun r => { r with staging_success := some true, source_updated_at := mark })) }

/-- `log_fail`: SET status = FAILED, notes = message. -/
def log_fail (db : DB) (run_id : Nat) (msg : String) : DB :=
  { db with runLog := (update_run db.runLog run_id
      (fun r => { r with status := "FAILED", notes := some msg })) }

/-! ## Watermark lookup (`get_start_date`)

The SQL is `SELECT source_updated_at FROM etl_run_log WHERE store_name = s
AND entity_name = e AND status = 'SUCCESS' ORDER BY source_updated_at DESC
LIMIT 1`.  Under Postgres semantics `ORDER BY x DESC` sorts NULLs first,
so the selected row is the maximum of the column under the order that
places NULL above every value. -/

/-- The `source_updated_at` column of the rows matching the WHERE clause. -/
def successRows (log : List RunRecord) (store entity : String) : List (Option Timestamp) :=
  (log.filter (fun r =>
      r.store_name == store && r.entity_name == entity && r.status == "SUCCESS")).map
    (fun r => r.source_updated_at)

/-- Postgres DESC order on a nullable column: NULL sorts above every value. -/
def pgGe : Option Timestamp → Option Timestamp → Bool
  | none, _ => true
  | some _, none => false
  | some a, some b => decide (b ≤ a)

/-- The first row of `ORDER BY source_updated_at DESC LIMIT 1`: the
maximum under `pgGe`, `none` when the result set is empty. -/
def selectTop : List (Option Timestamp) → Option (Option Timestamp)
  | [] => none
  | v :: rest =>
    match selectTop rest with
    | none => some v
    | some w => some (if pgGe v w then v else w)

/-- `get_start_date`: lookback 2 + max(0, days since the selected mark)
when the selected row exists and is non-null, else 3 days.
`timedelta.days` is floor division, hence `Int.fdiv`. -/
def get_start_date (now : Timestamp) (log : List RunRecord) (store entity : String) : Timestamp :=
  match selectTop (successRows log store entity) with
  | some (some last_success) =>
    let days_gap := Int.fdiv (now - last_success) SECONDS_PER_DAY
    let lookback := 2 + max 0 days_gap
    now - lookback * SECONDS_PER_DAY
  | _ => now - 3 * SECONDS_PER_DAY

/-! ## JSON values and monetary extraction (`incremental_loaders.py`) -/

/-- Python-style JSON values as handled by the loaders. -/
inductive Json where
  | null : Json
  | bool : Bool → Json
  | num : ℚ → Json
  | str : String → Json
  | arr : List Json → Json
  | obj : List (String × Json) → Json

/-- Python truthiness of a JSON value. -/
def pyTruthy : Json → Bool
  | Json.null => false
  | Json.bool b => b
  | Json.num q => decide (q ≠ 0)
  | Json.str s => !s.isEmpty
  | Json.arr xs => !xs.isEmpty
  | Json.obj kvs => !kvs.isEmpty

/-- `dict.get(k)`: first binding for the key, `None` when absent. -/
def dictGet (kvs : List (String × Json)) (k : String) : Json :=
  match kvs.find? (fun kv => kv.1 == k) with
  | some kv => kv.2
  | none => Json.null

/-- Value of a list of decimal digit characters. -/
def digitsToNat (l : List Char) : Nat :=
  l.foldl (fun n c => n * 10 + (c.toNat - 48)) 0

/-- Python `float(s)` on the decimal forms the pipeline meets: stripped
of surrounding whitespace, optional sign, digits, optional fractional
part (exponents are out of scope for the data handled here); `none`
models the raised `ValueError`.  The value is assembled with `mkRat`
over an integer numerator and a power-of-ten denominator. -/
def parseFloatStr (s : String) : Option ℚ :=
  let cs := ((s.toList.dropWhile Char.isWhitespace).reverse.dropWhile Char.isWhitespace).reverse
  let signed : Int × List Char :=
    match cs with
    | c :: rest =>
      if c = '-' then (-1, rest)
      else if c = '+' then (1, rest)
      else (1, cs)
    | [] => (1, cs)
  let intPart := signed.2.takeWhile Char.isDigit
  let rest := signed.2.dropWhile Char.isDigit
  match rest with
  | [] =>
    if intPart.isEmpty then none
    else some (mkRat (signed.1 * (digitsToNat intPart : Int)) 1)
  | c :: frac =>
    if c = '.' && frac.all Char.isDigit && !(intPart.isEmpty && frac.isEmpty) then
      some (mkRat (signed.1 * ((digitsToNat intPart * 10 ^ frac.length + digitsToNat frac : Nat) : Int))
        (10 ^ frac.length))
    else none

/-- Python `float(v)` on a JSON value; `none` models the raised
`TypeError`/`ValueError` (caught by `safe_val`). -/
def pyFloat : Json → Option ℚ
  | Json.num q => some q
  | Json.str s => parseFloatStr s
  | Json.bool b => some (if b then 1 else 0)
  | _ => none

/-- `safe_val(val, type_func, default)`: default on `None`, else the
conversion, default again when the conversion raises. -/
def safe_val (val : Json) (type_func : Json → Option ℚ) (d : ℚ) : ℚ :=
  match val with
  | Json.null => d
  | v =>
    match type_func v with
    | some q => q
    | none => d

/-- `get_money`: zero for falsy input, nested shopMoney amount when a
truthy shopMoney is present, bare amount otherwise; a truthy non-dict
shopMoney would raise `AttributeError` (modelled as `Except.error`). -/
def get_money (obj : Json) : Except String ℚ :=
  if !pyTruthy obj then Except.ok 0
  else
    match obj with
    | Json.obj kvs =>
      let sm := dictGet kvs "shopMoney"
      if pyTruthy sm then
        match sm with
        | Json.obj skvs => Except.ok (safe_val (dictGet skvs "amount") pyFloat 0)
        | _ => Except.error "AttributeError: no attribute get"
      else Except.ok (safe_val (dictGet kvs "amount") pyFloat 0)
    | _ => Except.ok 0

/-! ## Cursor pagination (`fetch_all_pages` of `extarct_incremental.py`) -/

/-- One GraphQL response page: edge list plus pageInfo. Cursors are
opaque on the wire and modelled as naturals. -/
structure Page where
  edges : List Nat
  hasNextPage : Bool
  endCursor : Option Nat
deriving DecidableEq

/-- `fetch_all_pages`: request with the current cursor (initially
`None`), accumulate the edges, continue while `hasNextPage`, advancing
the cursor to `endCursor`.  The while loop is given explicit fuel;
`none` means the fuel ran out before the API reported a last page. -/
def fetch_all_pages (api : Option Nat → Page) : Nat → Option Nat → List Nat → Option (List Nat)
  | 0, _, _ => none
  | Nat.succ fuel, cursor, acc =>
    let data := api cursor
    let acc2 := acc ++ data.edges
    if data.hasNextPage then fetch_all_pages api fuel data.endCursor acc2
    else some acc2

/-- A mock transport serving a fixed page sequence: cursor `none` means
page 0, cursor `some i` means page `i`; page `i` links to page `i+1`
and reports a next page exactly while one exists. -/
def mkApi (ps : List (List Nat)) : Option Nat → Page := fun c =>
  let i := c.getD 0
  { edges := ps.getD i [],
    hasNextPage := decide (i + 1 < ps.length),
    endCursor := some (i + 1) }

/-! ## Rate limiting (`_make_request` of `extarct_incremental.py`) -/

/-- Per-instance extractor state: `self.last_request_time`. -/
structure ExtractorState where
  last_request_time : ℚ
deriving DecidableEq

/-- Timing skeleton of `_make_request`: if less than 0.5s elapsed since
`last_request_time`, sleep the remainder; issue the request, and after
the response (`dur` seconds later) store the completion time.  Returns
(issue time, new state). -/
def make_request (st : ExtractorState) (now dur : ℚ) : ℚ × ExtractorState :=
  if now - st.last_request_time < 1/2 then
    (now + (1/2 - (now - st.last_request_time)),
     { last_request_time := now + (1/2 - (now - st.last_request_time)) + dur })
  else
    (now, { last_request_time := now + dur })

/-! ## Merge executor (`run_etl_with_retries.py`) -/

/-- One SQL job descriptor from `config.json` (`entities[name][i]`).
The fields read with `job[...]` are mandatory, those read with
`job.get(...)` are optional. -/
structure Job where
  sql_file : String
  columns : List String
  target_table : String
  staging_retail : Option String := none
  staging_wholesale : Option String := none
  staging_variant_retail : Option String := none
  staging_variant_wholesale : Option String := none
  staging_product_retail : Option String := none
  staging_product_wholesale : Option String := none
deriving DecidableEq

/-- Python truthiness of an optional string (`None` and `""` are falsy). -/
def pyTruthyStr : Option String → Bool
  | none => false
  | some s => !s.isEmpty

/-- `make_combined_staging_table`: UNION ALL of both staging tables when
both are truthy, else the first truthy one, else the empty string. -/
def make_combined_staging_table (r w : Option String) : String :=
  if pyTruthyStr r && pyTruthyStr w then
    "(SELECT * FROM " ++ r.getD "" ++ " UNION ALL SELECT * FROM " ++ w.getD "" ++ ")"
  else if pyTruthyStr r then r.getD ""
  else if pyTruthyStr w then w.getD ""
  else ""

/-- `render_sql`: textual substitution of each placeholder token, in
insertion order of the `subs` dict; `None` values render as "". -/
def render_sql (template : String) (subs : List (String × Option String)) : String :=
  subs.foldl (fun t kv => t.replace ("\x7b" ++ kv.1 ++ "\x7d") (kv.2.getD "")) template

/-- The substitution dict built for one job, in source order. -/
def jobSubs (job : Job) : List (String × Option String) :=
  [("TARGET_TABLE", some job.target_table),
   ("STAGING_TABLE", some (make_combined_staging_table job.staging_retail job.staging_wholesale)),
   ("STAGING_RETAIL", job.staging_retail),
   ("STAGING_WHOLESALE", job.staging_wholesale),
   ("STAGING_VARIANT_RETAIL", job.staging_variant_retail),
   ("STAGING_VARIANT_WHOLESALE", job.staging_variant_wholesale),
   ("STAGING_PRODUCT_RETAIL", job.staging_product_retail),
   ("STAGING_PRODUCT_WHOLESALE", job.staging_product_wholesale),
   ("COLUMNS", some (String.intercalate ", " job.columns))]

/-- Environment of the merge executor over a warehouse-state type `W`:
the parsed `config.json`, the SQL template directory contents, and the
warehouse effect of executing one SQL text (`cur.execute`). An
`Except.error` models the raised SQL exception. -/
structure MergeEnv (W : Type) where
  sql_dir : String
  cfg_entities : String → List Job
  sqlFiles : String → Option String
  execSql : String → W → Except String W

/-- The cursor loop inside the `try`: for each job load the template
(raising `FileNotFoundError` when missing), render it and execute it on
the (uncommitted) warehouse state. -/
def runJobs {W : Type} (env : MergeEnv W) : List Job → W → Except String W
  | [], w => Except.ok w
  | job :: rest, w =>
    match env.sqlFiles job.sql_file with
    | none => Except.error ("SQL file not found: " ++ env.sql_dir ++ "/" ++ job.sql_file)
    | some template =>
      match env.execSql (render_sql template (jobSubs job)) w with
      | Except.error e => Except.error e
      | Except.ok w2 => runJobs env rest w2

/-- `run_entity_merge`: all jobs of one entity in a single transaction;
commit on success, rollback (warehouse unchanged) and `(False, str(e))`
on any failure; `(False, msg)` when no jobs are configured. -/
def run_entity_merge {W : Type} (env : MergeEnv W) (entity_name : String) (wh : W) :
    (Bool × Option String) × W :=
  let entity_jobs := env.cfg_entities entity_name
  if entity_jobs.isEmpty then
    ((false, some ("No SQL jobs found for entity: " ++ entity_name)), wh)
  else
    match runJobs env entity_jobs wh with
    | Except.ok w2 => ((true, none), w2)
    | Except.error e => ((false, some e), wh)

/-! ## Staging loader (`incremental_loaders.py`)

The loaders share one skeleton: truncate the entity's staging tables,
fold the batch for the maximum `updatedAt`, bulk-insert the flattened
rows, return the maximum.  The per-field flattening of records into
rows is irrelevant to the claims under verification and is abstracted
to the record list itself. -/

/-- Staging table name for a store (`staging_{store}_{name}`). -/
def stg (store name : String) : String := "staging_" ++ store ++ "_" ++ name

/-- The staging tables each loader truncates and writes, per entity. -/
def loader_tables (store entity : String) : List String :=
  if entity == "orders" then [stg store "fact_orders", stg store "fact_order_items"]
  else if entity == "customers" then [stg store "dim_customers"]
  else if entity == "products" then
    [stg store "dim_products", stg store "dim_product_variants",
     stg store "fact_current_inventory", stg store "inventory_snapshot"]
  else []

/-- Errors a staging task can surface. -/
inductive PyErr where
  | storage : String → PyErr
deriving DecidableEq

/-- Environment of one scheduler invocation over warehouse type `W`:
clock, injected persistence failures, extraction outcomes per
(store, entity, window), staging-table failures, and the merge
environment. -/
structure SchedEnv (W : Type) where
  now : Timestamp
  logStartFails : String → String → Bool
  extract : String → String → Option Timestamp → Except String (List SrcRec)
  truncateFails : String → Bool
  insertFails : String → Bool
  merge : MergeEnv W

/-- `truncate_staging`: one connection, TRUNCATE each table, commit at
the end; a failure rolls the whole lot back (no table truncated) and
propagates. -/
def truncate_staging {W : Type} (env : SchedEnv W) (tables : List String)
    (tbls : String → List SrcRec) : Except String (String → List SrcRec) :=
  if tables.any env.truncateFails then Except.error "TRUNCATE failed"
  else Except.ok (fun t => if tables.contains t then [] else tbls t)

/-- `_bulk_insert`: nothing on an empty batch; `to_sql(..., if_exists =
append)` otherwise, except that an insert error is caught and only
logged, leaving the table as it was. -/
def bulk_insert {W : Type} (env : SchedEnv W) (table : String) (data : List SrcRec)
    (tbls : String → List SrcRec) : String → List SrcRec :=
  if data.isEmpty then tbls
  else if env.insertFails table then tbls
  else fun t => if t == table then tbls t ++ data else tbls t

/-- The `max_updated_at` fold shared by the loaders: ignore records
without `updatedAt`, keep the largest seen (`curr > max` on ISO strings
is the order on instants). -/
def max_updated (data : List SrcRec) : Option Timestamp :=
  data.foldl
    (fun acc r =>
      match r.updatedAt, acc with
      | none, _ => acc
      | some c, none => some c
      | some c, some m => if m < c then some c else some m)
    none

/-- Common skeleton of `load_orders_json` / `load_customers_json` /
`load_products_json`: truncate the entity's staging tables, compute the
watermark, bulk-insert, return (watermark, new state). -/
def load_entity_json {W : Type} (env : SchedEnv W) (store entity : String)
    (data : List SrcRec) (db : DB) : Except String (Option Timestamp × DB) :=
  match truncate_staging env (loader_tables store entity) db.tables with
  | Except.error e => Except.error e
  | Except.ok t1 =>
    let t2 := (loader_tables store entity).foldl
      (fun ts tbl => bulk_insert env tbl data ts) t1
    Except.ok (max_updated data, { db with tables := t2 })

/-! ## Scheduler (`daily_scheduler.py`) -/

/-- The entities known to `process_entity`'s if/elif chain. -/
def isKnownEntity (e : String) : Bool :=
  e == "orders" || e == "customers" || e == "products"

/-- `process_entity`: insert the RUNNING row (outside the `try`, so a
storage failure there propagates), then inside the `try`: compute the
window, extract (products is a full refresh with no window), load when
the batch is non-empty, record staging success with the watermark; any
exception inside the `try` is caught, recorded via `log_fail`, and
converted to `False`. -/
def process_entity {W : Type} (env : SchedEnv W) (store entity : String) (db : DB) :
    Except PyErr (Bool × DB) :=
  if env.logStartFails store entity then
    Except.error (PyErr.storage "etl_run_log insert failed")
  else
    let run_id := db.nextId
    let db0 := log_start db store entity
    if isKnownEntity entity then
      let start_date := get_start_date env.now db0.runLog store entity
      let window : Option Timestamp := if entity == "products" then none else some start_date
      match env.extract store entity window with
      | Except.error e => Except.ok (false, log_fail db0 run_id e)
      | Except.ok data =>
        if data.isEmpty then Except.ok (true, log_staging_success db0 run_id none)
        else
          match load_entity_json env store entity data db0 with
          | Except.error e => Except.ok (false, log_fail db0 run_id e)
          | Except.ok md => Except.ok (true, log_staging_success md.2 run_id md.1)
    else
      Except.ok (true, log_staging_success db0 run_id none)

/-- The two stores of `run_daily_job`. -/
def stores : List String := ["retail", "wholesale"]

/-- The three entities of `run_daily_job`. -/
def entities : List String := ["orders", "customers", "products"]

/-- The six (store, entity) staging tasks submitted to the pool. -/
def tasks : List (String × String) :=
  stores.flatMap (fun s => entities.map (fun e => (s, e)))

/-- One step of Phase 1: run a staging task against the shared
persistent state and record its outcome (a raised exception surfaces
later, at `t.result()`). Tasks write disjoint tables and rows, so the
thread pool is linearized. -/
def phase1Step {W : Type} (env : SchedEnv W) (acc : List (Except PyErr Bool) × DB)
    (t : String × String) : List (Except PyErr Bool) × DB :=
  match process_entity env t.1 t.2 acc.2 with
  | Except.ok r => (acc.1 ++ [Except.ok r.1], r.2)
  | Except.error e => (acc.1 ++ [Except.error e], acc.2)

/-- Phase 1: all six staging tasks run to completion. -/
def phase1 {W : Type} (env : SchedEnv W) (db : DB) : List (Except PyErr Bool) × DB :=
  tasks.foldl (phase1Step env) ([], db)

/-- `[t.result() for t in tasks]` re-raises the first stored exception. -/
def firstError (rs : List (Except PyErr Bool)) : Option PyErr :=
  rs.findSome? (fun r => match r with | Except.error e => some e | _ => none)

/-- The boolean a completed task reported. -/
def resBool : Except PyErr Bool → Bool
  | Except.ok b => b
  | Except.error _ => false

/-- `UPDATE etl_run_log SET merge_success, status, notes WHERE
entity_name = e AND status = 'RUNNING'` (both stores at once). -/
def mark_merge (db : DB) (entity : String) (success : Bool) (err : Option String) : DB :=
  { db with runLog := (db.runLog.map (fun r =>
      if r.entity_name == entity && r.status == "RUNNING" then
        { r with merge_success := some success,
                 status := if success then "SUCCESS" else "FAILED",
                 notes := err }
      else r)) }

/-- Accumulator of the Phase 2 loop. -/
structure Phase2State (W : Type) where
  db : DB
  wh : W
  results : List (String × Bool × Option String)
  allOk : Bool

/-- One iteration of the Phase 2 loop: merge the entity, record the
outcome on all its RUNNING run records, update the gate flag. -/
def phase2Step {W : Type} (env : SchedEnv W) (st : Phase2State W) (e : String) :
    Phase2State W :=
  let mr := run_entity_merge env.merge e st.wh
  { db := mark_merge st.db e mr.1.1 mr.1.2,
    wh := mr.2,
    results := st.results ++ [(e, mr.1.1, mr.1.2)],
    allOk := st.allOk && mr.1.1 }

/-- Phase 2: serial merges over all entities, no short-circuit. -/
def phase2 {W : Type} (env : SchedEnv W) (db : DB) (wh : W) : Phase2State W :=
  entities.foldl (phase2Step env) { db := db, wh := wh, results := [], allOk := true }

/-- Observable outcome of one `run_daily_job` invocation. -/
structure RunOutcome (W : Type) where
  db : DB
  wh : W
  mergeResults : List (String × Bool × Option String)
  refresh : Bool
  raised : Option PyErr

/-- `run_daily_job`: Phase 1 in a pool, collect results (re-raising a
stored task exception), gate on all-staged, Phase 2 serially, then
trigger the refresh only when every merge succeeded. -/
def run_daily_job {W : Type} (env : SchedEnv W) (db : DB) (wh : W) : RunOutcome W :=
  let p1 := phase1 env db
  match firstError p1.1 with
  | some e => { db := p1.2, wh := wh, mergeResults := [], refresh := false, raised := some e }
  | none =>
    if p1.1.all resBool then
      let p2 := phase2 env p1.2 wh
      { db := p2.db, wh := p2.wh, mergeResults := p2.results,
        refresh := p2.allOk, raised := none }
    else
      { db := p1.2, wh := wh, mergeResults := [], refresh := false, raised := none }

/-! ## Theorems -/

instance {ε α : Type} [DecidableEq ε] [DecidableEq α] : DecidableEq (Except ε α) := fun x y =>
  match x, y with
  | Except.ok a, Except.ok b =>
    if h : a = b then isTrue (by rw [h]) else isFalse (by simp [h])
  | Except.error a, Except.error b =>
    if h : a = b then isTrue (by rw [h]) else isFalse (by simp [h])
  | Except.ok a, Except.error b => isFalse (by simp)
  | Except.error a, Except.ok b => isFalse (by simp)

theorem update_run_append (l : List RunRecord) (r0 : RunRecord) (f : RunRecord → RunRecord)
    (h : ∀ r ∈ l, r.run_id ≠ r0.run_id) :
    update_run (l ++ [r0]) r0.run_id f = l ++ [f r0] := by
  unfold update_run
  rw [List.map_append]
  congr 1
  · rw [List.map_congr_left (g := id) (fun r hr => by rw [if_neg (h r hr)]; rfl)]
    exact List.map_id l
  · simp

theorem log_fail_runLog (db : DB) (s e msg : String)
    (hfresh : ∀ r ∈ db.runLog, r.run_id < db.nextId) :
    (log_fail (log_start db s e) db.nextId msg).runLog =
      db.runLog ++ [{ blankRecord db.nextId s e with status := "FAILED", notes := some msg }] :=
  update_run_append db.runLog (blankRecord db.nextId s e) _
    (fun r hr => Nat.ne_of_lt (hfresh r hr))

theorem log_staged_runLog (db : DB) (s e : String) (mx : Option Timestamp) (d : DB)
    (hd : d.runLog = (log_start db s e).runLog)
    (hfresh : ∀ r ∈ db.runLog, r.run_id < db.nextId) :
    (log_staging_success d db.nextId mx).runLog =
      db.runLog ++ [{ blankRecord db.nextId s e with staging_success := some true, source_updated_at := mx }] := by
  show update_run d.runLog db.nextId _ = _
  rw [hd]
  exact update_run_append db.runLog (blankRecord db.nextId s e) _
    (fun r hr => Nat.ne_of_lt (hfresh r hr))

theorem load_entity_json_ok {W : Type} (env : SchedEnv W) (store entity : String)
    (data : List SrcRec) (db : DB) (md : Option Timestamp × DB)
    (h : load_entity_json env store entity data db = Except.ok md) :
    md.1 = max_updated data ∧ md.2.runLog = db.runLog ∧ md.2.nextId = db.nextId := by
  unfold load_entity_json at h
  cases ht : truncate_staging env (loader_tables store entity) db.tables with
  | error e2 =>
    rw [ht] at h
    simp at h
  | ok t1 =>
    rw [ht] at h
    simp at h
    rw [← h]
    exact ⟨rfl, rfl, rfl⟩

/-- Shape of every completed staging task: once the RUNNING row is in,
the task returns a boolean, appends exactly one record and leaves the
rest of the run log alone; a false result comes with the record marked
FAILED and a note; a true result with staging_success set. -/
theorem process_entity_ok_shape {W : Type} (env : SchedEnv W) (s e : String) (db : DB)
    (hfresh : ∀ r ∈ db.runLog, r.run_id < db.nextId)
    (hstart : env.logStartFails s e = false) :
    ∃ b rec db2, process_entity env s e db = Except.ok (b, db2) ∧
      db2.runLog = db.runLog ++ [rec] ∧ db2.nextId = db.nextId + 1 ∧
      rec.store_name = s ∧ rec.entity_name = e ∧ rec.run_id = db.nextId ∧
      rec.merge_success = none ∧
      (b = false → rec.status = "FAILED" ∧ rec.notes ≠ none) ∧
      (b = true → rec.staging_success = some true) := by
  unfold process_entity
  simp only [hstart, Bool.false_eq_true, if_false]
  split
  · -- known entity: split over the extraction result
    split
    · -- extraction raised
      exact ⟨false, _, _, rfl, log_fail_runLog db s e _ hfresh, rfl, rfl, rfl, rfl, rfl,
        fun _ => ⟨rfl, Option.some_ne_none _⟩, fun hb => absurd hb (by decide)⟩
    · -- extraction returned data
      split
      · -- empty batch
        exact ⟨true, _, _, rfl, log_staged_runLog db s e none _ rfl hfresh, rfl, rfl, rfl, rfl,
          rfl, fun hb => absurd hb (by decide), fun _ => rfl⟩
      · -- non-empty batch: split over the loader result
        split
        · -- loader raised
          exact ⟨false, _, _, rfl, log_fail_runLog db s e _ hfresh, rfl, rfl, rfl, rfl, rfl,
            fun _ => ⟨rfl, Option.some_ne_none _⟩, fun hb => absurd hb (by decide)⟩
        · -- loader succeeded
          rename_i md heq
          have hld := load_entity_json_ok env s e _ _ md heq
          refine ⟨true, _, _, rfl, log_staged_runLog db s e md.1 md.2 hld.2.1 hfresh, ?_, rfl,
            rfl, rfl, rfl, fun hb => absurd hb (by decide), fun _ => rfl⟩
          show md.2.nextId = db.nextId + 1
          exact hld.2.2
  · -- unknown entity: staged with a null watermark
    exact ⟨true, _, _, rfl, log_staged_runLog db s e none _ rfl hfresh, rfl, rfl, rfl, rfl,
      rfl, fun hb => absurd hb (by decide), fun _ => rfl⟩

/-- C2 (amended): once the initial RUNNING row has been inserted
(`log_start` does not raise), `process_entity` never lets an exception
escape: every failure injected into the extract→load sequence of the
`try` block is caught, recorded on the one run record this task
appended (status FAILED with a note), and turned into a boolean result;
pre-existing run records are left untouched.  A StorageError in
`log_start` itself is outside the `try` and is not covered. -/
theorem process_entity_fault_isolated {W : Type} (env : SchedEnv W) (s e : String) (db : DB)
    (hfresh : ∀ r ∈ db.runLog, r.run_id < db.nextId)
    (hstart : env.logStartFails s e = false) :
    ∃ b rec db2, process_entity env s e db = Except.ok (b, db2) ∧
      db2.runLog = db.runLog ++ [rec] ∧ db2.nextId = db.nextId + 1 ∧
      rec.store_name = s ∧ rec.entity_name = e ∧ rec.run_id = db.nextId ∧
      rec.merge_success = none ∧
      (b = false → rec.status = "FAILED" ∧ rec.notes ≠ none) ∧
      (b = true → rec.staging_success = some true) :=
  process_entity_ok_shape env s e db hfresh hstart

/-- The shared persistent state at the start of an invocation. -/
def db0 : DB := { runLog := [], nextId := 1, tables := fun _ => [] }

/-- An SQL job used by the concrete witness environments. -/
def cfgJob : Job := { sql_file := "job.sql", columns := ["a", "b"], target_table := "fact" }

/-- A fully healthy scheduler environment over a counter warehouse:
every store/entity extraction yields one record, no injected failures,
every merge job succeeds. -/
def envBase : SchedEnv Nat :=
  { now := 0,
    logStartFails := fun _ _ => false,
    extract := fun _ _ _ => Except.ok [{ updatedAt := some 100, payload := 0 }],
    truncateFails := fun _ => false,
    insertFails := fun _ => false,
    merge := { sql_dir := "./sql", cfg_entities := fun _ => [cfgJob],
               sqlFiles := fun _ => some "MERGE SQL TEXT",
               execSql := fun _ w => Except.ok (w + 1) } }

/-- The environment whose persistence layer rejects the initial RUNNING
insert for (retail, orders). -/
def envLogStartFail : SchedEnv Nat :=
  { envBase with logStartFails := fun s e => s == "retail" && e == "orders" }

/-- C2 counterexample: a StorageError raised while inserting the
initial RUNNING run record is NOT caught at the task boundary —
`log_start` runs before the `try`, so `process_entity` propagates the
exception instead of returning a boolean failure signal. -/
theorem process_entity_claim_cex :
    process_entity envLogStartFail "retail" "orders" db0 =
      Except.error (PyErr.storage "etl_run_log insert failed") := rfl

/-- Witness for the fault-isolation theorem at a concrete healthy task. -/
theorem process_entity_fault_isolated_w :
    ∃ b rec db2, process_entity envBase "retail" "orders" db0 = Except.ok (b, db2) ∧
      db2.runLog = db0.runLog ++ [rec] ∧ db2.nextId = db0.nextId + 1 ∧
      rec.store_name = "retail" ∧ rec.entity_name = "orders" ∧ rec.run_id = db0.nextId ∧
      rec.merge_success = none ∧
      (b = false → rec.status = "FAILED" ∧ rec.notes ≠ none) ∧
      (b = true → rec.staging_success = some true) :=
  process_entity_fault_isolated envBase "retail" "orders" db0
    (by intro r hr; simp [db0] at hr) rfl

theorem phase1_fold_inv {W : Type} (env : SchedEnv W) (c : Nat) (ts : List (String × String)) :
    ∀ (acc : List (Except PyErr Bool) × DB),
      (∀ r ∈ acc.2.runLog, r.run_id < acc.2.nextId) →
      (∀ r ∈ acc.2.runLog, c ≤ r.run_id → r.merge_success = none) →
      (∀ r ∈ (ts.foldl (phase1Step env) acc).2.runLog,
          r.run_id < (ts.foldl (phase1Step env) acc).2.nextId) ∧
      (∀ r ∈ (ts.foldl (phase1Step env) acc).2.runLog,
          c ≤ r.run_id → r.merge_success = none) := by
  induction ts with
  | nil => intro acc h1 h2; exact ⟨h1, h2⟩
  | cons t rest ih =>
    intro acc h1 h2
    rw [List.foldl_cons]
    by_cases hls : env.logStartFails t.1 t.2 = true
    · have hstep : phase1Step env acc t =
          (acc.1 ++ [Except.error (PyErr.storage "etl_run_log insert failed")], acc.2) := by
        unfold phase1Step process_entity
        simp [hls]
      rw [hstep]
      exact ih _ h1 h2
    · have hls2 : env.logStartFails t.1 t.2 = false := by
        revert hls
        cases env.logStartFails t.1 t.2 <;> simp
      obtain ⟨b, rec, dbz, hpe, hlog, hnext, hst, hen, hid, hmerge, hbf, hbt⟩ :=
        process_entity_ok_shape env t.1 t.2 acc.2 h1 hls2
      have hstep : phase1Step env acc t = (acc.1 ++ [Except.ok b], dbz) := by
        unfold phase1Step
        rw [hpe]
      rw [hstep]
      apply ih
      · intro r hr
        rw [hlog] at hr
        rw [hnext]
        rcases List.mem_append.mp hr with h | h
        · exact Nat.lt_succ_of_lt (h1 r h)
        · simp at h
          rw [h, hid]
          exact Nat.lt_succ_self _
      · intro r hr hc
        rw [hlog] at hr
        rcases List.mem_append.mp hr with h | h
        · exact h2 r h hc
        · simp at h
          rw [h]
          exact hmerge

/-- C1: if any staging task of Phase 1 reports failure, `run_daily_job`
ends without invoking `run_entity_merge` for any entity — no merge
outcome is recorded, the warehouse is untouched, the refresh is not
triggered, and every run record created by this invocation (id at or
above the invocation's starting id) is left without a merge result. -/
theorem run_daily_job_gate1 {W : Type} (env : SchedEnv W) (db : DB) (wh : W)
    (hfresh : ∀ r ∈ db.runLog, r.run_id < db.nextId)
    (hfail : Except.ok false ∈ (phase1 env db).1) :
    (run_daily_job env db wh).mergeResults = [] ∧
    (run_daily_job env db wh).refresh = false ∧
    (run_daily_job env db wh).wh = wh ∧
    ∀ r ∈ (run_daily_job env db wh).db.runLog, db.nextId ≤ r.run_id →
      r.merge_success = none := by
  have hinv := phase1_fold_inv env db.nextId tasks ([], db) hfresh
    (fun r hr hc => absurd hc (not_le.mpr (hfresh r hr)))
  cases hfe : firstError (phase1 env db).1 with
  | some e =>
    have hrdj : run_daily_job env db wh =
        { db := (phase1 env db).2, wh := wh, mergeResults := [], refresh := false,
          raised := some e } := by
      simp only [run_daily_job]
      rw [hfe]
    rw [hrdj]
    exact ⟨rfl, rfl, rfl, hinv.2⟩
  | none =>
    have hall : (phase1 env db).1.all resBool = false := by
      cases hx : (phase1 env db).1.all resBool
      · rfl
      · have := List.all_eq_true.mp hx _ hfail
        simp [resBool] at this
    have hrdj : run_daily_job env db wh =
        { db := (phase1 env db).2, wh := wh, mergeResults := [], refresh := false,
          raised := none } := by
      simp only [run_daily_job]
      rw [hfe, hall]
      rfl
    rw [hrdj]
    exact ⟨rfl, rfl, rfl, hinv.2⟩

/-- The healthy environment with one injected extraction failure: the
(retail, orders) staging task fails with a transport error. -/
def envExtractFail : SchedEnv Nat :=
  { envBase with extract := fun s e _ =>
      if s == "retail" && e == "orders" then Except.error "HTTP 500"
      else Except.ok [{ updatedAt := some 100, payload := 0 }] }

/-- Witness for gate rule 1 at a concrete environment where 1 of the 6
staging tasks fails. -/
theorem run_daily_job_gate1_w :
    (run_daily_job envExtractFail db0 (0 : Nat)).mergeResults = [] ∧
    (run_daily_job envExtractFail db0 (0 : Nat)).refresh = false ∧
    (run_daily_job envExtractFail db0 (0 : Nat)).wh = 0 ∧
    ∀ r ∈ (run_daily_job envExtractFail db0 (0 : Nat)).db.runLog, db0.nextId ≤ r.run_id →
      r.merge_success = none :=
  run_daily_job_gate1 envExtractFail db0 0 (by intro r hr; simp [db0] at hr) (by decide)

/-- The merge outcomes Phase 2 produces, entity by entity, threading
the warehouse state through the committed/rolled-back results. -/
def mergeSeq {W : Type} (env : MergeEnv W) : List String → W → List (String × Bool × Option String)
  | [], _ => []
  | e :: rest, w =>
    (e, (run_entity_merge env e w).1.1, (run_entity_merge env e w).1.2) ::
      mergeSeq env rest (run_entity_merge env e w).2

theorem phase2_foldl_eq {W : Type} (env : SchedEnv W) (es : List String) :
    ∀ (st : Phase2State W),
      (es.foldl (phase2Step env) st).results = st.results ++ mergeSeq env.merge es st.wh ∧
      (es.foldl (phase2Step env) st).allOk =
        (st.allOk && (mergeSeq env.merge es st.wh).all (fun x => x.2.1)) := by
  induction es with
  | nil => intro st; simp [mergeSeq]
  | cons e rest ih =>
    intro st
    rw [List.foldl_cons]
    have h := ih (phase2Step env st e)
    constructor
    · rw [h.1]
      show (st.results ++ [(e, (run_entity_merge env.merge e st.wh).1.1,
          (run_entity_merge env.merge e st.wh).1.2)]) ++
          mergeSeq env.merge rest (run_entity_merge env.merge e st.wh).2 = _
      rw [List.append_assoc]
      rfl
    · rw [h.2]
      show ((st.allOk && (run_entity_merge env.merge e st.wh).1.1) &&
          (mergeSeq env.merge rest (run_entity_merge env.merge e st.wh).2).all (fun x => x.2.1)) = _
      simp [mergeSeq, Bool.and_assoc]

theorem mergeSeq_map_fst {W : Type} (env : MergeEnv W) (es : List String) :
    ∀ (w : W), (mergeSeq env es w).map (fun x => x.1) = es := by
  induction es with
  | nil => intro w; rfl
  | cons e rest ih => intro w; simp [mergeSeq, ih]

/-- C3: when every staging task reported success, Phase 2 attempts the
merge of every entity in order, with no short-circuit on a failed
merge, no exception escapes, and the downstream refresh fires exactly
when every entity's merge reported success. -/
theorem run_daily_job_gate2 {W : Type} (env : SchedEnv W) (db : DB) (wh : W)
    (hok : ∀ r ∈ (phase1 env db).1, r = Except.ok true) :
    (run_daily_job env db wh).mergeResults.map (fun x => x.1) = entities ∧
    ((run_daily_job env db wh).refresh = true ↔
      ∀ x ∈ (run_daily_job env db wh).mergeResults, x.2.1 = true) ∧
    (run_daily_job env db wh).raised = none := by
  have hfe : firstError (phase1 env db).1 = none :=
    List.findSome?_eq_none_iff.mpr (fun x hx => by rw [hok x hx])
  have hall : (phase1 env db).1.all resBool = true :=
    List.all_eq_true.mpr (fun x hx => by rw [hok x hx]; rfl)
  have hrdj : run_daily_job env db wh =
      { db := (phase2 env (phase1 env db).2 wh).db, wh := (phase2 env (phase1 env db).2 wh).wh,
        mergeResults := (phase2 env (phase1 env db).2 wh).results,
        refresh := (phase2 env (phase1 env db).2 wh).allOk, raised := none } := by
    simp only [run_daily_job]
    rw [hfe, hall]
    rfl
  have hp2 := phase2_foldl_eq env entities
    { db := (phase1 env db).2, wh := wh, results := [], allOk := true }
  rw [hrdj]
  refine ⟨?_, ?_, rfl⟩
  · show (phase2 env (phase1 env db).2 wh).results.map (fun x => x.1) = entities
    unfold phase2
    rw [hp2.1]
    simp [mergeSeq_map_fst]
  · show (phase2 env (phase1 env db).2 wh).allOk = true ↔
      ∀ x ∈ (phase2 env (phase1 env db).2 wh).results, x.2.1 = true
    unfold phase2
    rw [hp2.1, hp2.2]
    simp [List.all_eq_true]

/-- The healthy environment except that the merge of "products" fails:
its SQL template file is missing. -/
def envMergeFailProducts : SchedEnv Nat :=
  { envBase with merge :=
      { sql_dir := "./sql",
        cfg_entities := fun e => [{ cfgJob with sql_file := e ++ ".sql" }],
        sqlFiles := fun f => if f == "products.sql" then none else some "MERGE SQL TEXT",
        execSql := fun _ w => Except.ok (w + 1) } }

/-- Witness for gate rule 2: all six staging tasks succeed, the
products merge fails while orders and customers merge, every entity is
attempted, and the refresh is skipped. -/
theorem run_daily_job_gate2_w :
    (run_daily_job envMergeFailProducts db0 (0 : Nat)).mergeResults.map (fun x => x.1) =
      entities ∧
    ((run_daily_job envMergeFailProducts db0 (0 : Nat)).refresh = true ↔
      ∀ x ∈ (run_daily_job envMergeFailProducts db0 (0 : Nat)).mergeResults, x.2.1 = true) ∧
    (run_daily_job envMergeFailProducts db0 (0 : Nat)).raised = none :=
  run_daily_job_gate2 envMergeFailProducts db0 0 (by decide)

/-- C5: `run_entity_merge` is transactional: when it reports success
the error slot is empty and the returned warehouse state is exactly
the sequential execution of every configured job of the entity
(single-transaction commit); when it reports failure the warehouse is
returned exactly as it was before the attempt (rollback) together with
an error message.  The connection is consumed either way — the
`finally` close leaves no pending state in the embedding. -/
theorem run_entity_merge_transactional {W : Type} (env : MergeEnv W) (entity_name : String)
    (wh : W) :
    ((run_entity_merge env entity_name wh).1.1 = true →
      (run_entity_merge env entity_name wh).1.2 = none ∧
      runJobs env (env.cfg_entities entity_name) wh =
        Except.ok (run_entity_merge env entity_name wh).2) ∧
    ((run_entity_merge env entity_name wh).1.1 = false →
      (run_entity_merge env entity_name wh).2 = wh ∧
      ∃ m, (run_entity_merge env entity_name wh).1.2 = some m) := by
  unfold run_entity_merge
  by_cases he : (env.cfg_entities entity_name).isEmpty = true
  · simp [he]
  · rw [if_neg he]
    cases hr : runJobs env (env.cfg_entities entity_name) wh with
    | ok w2 => simp [hr]
    | error e => simp [hr]

/-- A merge environment with no SQL jobs configured for any entity. -/
def mergeEnvEmpty : MergeEnv Nat :=
  { sql_dir := "./sql", cfg_entities := fun _ => [], sqlFiles := fun _ => none,
    execSql := fun _ w => Except.ok w }

/-- Witness for the transactional-merge theorem: the failing call leaves
the warehouse untouched and carries a message. -/
theorem run_entity_merge_transactional_w :
    (run_entity_merge mergeEnvEmpty "orders" (0 : Nat)).2 = 0 ∧
    ∃ m, (run_entity_merge mergeEnvEmpty "orders" (0 : Nat)).1.2 = some m :=
  (run_entity_merge_transactional mergeEnvEmpty "orders" 0).2 rfl

theorem fetch_all_pages_mkApi_aux (ps : List (List Nat)) :
    ∀ (fuel i : Nat) (c : Option Nat) (acc : List Nat),
      c.getD 0 = i → i < ps.length → ps.length - i ≤ fuel →
      fetch_all_pages (mkApi ps) fuel c acc = some (acc ++ (ps.drop i).flatten) := by
  intro fuel
  induction fuel with
  | zero =>
    intro i c acc hc hi hf
    omega
  | succ f ih =>
    intro i c acc hc hi hf
    show (if (mkApi ps c).hasNextPage then
        fetch_all_pages (mkApi ps) f (mkApi ps c).endCursor (acc ++ (mkApi ps c).edges)
      else some (acc ++ (mkApi ps c).edges)) = some (acc ++ (List.drop i ps).flatten)
    rw [show mkApi ps c = (⟨ps.getD i [], decide (i + 1 < ps.length), some (i + 1)⟩ : Page)
      from by unfold mkApi; rw [hc]]
    dsimp only
    by_cases h2 : i + 1 < ps.length
    · rw [if_pos (by simpa using h2)]
      rw [ih (i + 1) (some (i + 1)) (acc ++ ps.getD i []) rfl h2 (by omega)]
      rw [List.getD_eq_getElem ps [] hi, List.drop_eq_getElem_cons hi, List.flatten_cons,
        List.append_assoc]
    · rw [if_neg (by simpa using h2)]
      rw [List.getD_eq_getElem ps [] hi, List.drop_eq_getElem_cons hi,
        List.drop_eq_nil_of_le (by omega), List.flatten_cons, List.flatten_nil, List.append_nil]

/-- C6: against a mock transport serving a fixed page sequence,
`fetch_all_pages` starts from the null cursor, appends each page's
edges in page order, advances the cursor to each response's end-cursor
and terminates exactly at the first page reporting no next page,
returning the concatenation of all pages. -/
theorem fetch_all_pages_spec (ps : List (List Nat)) (fuel : Nat)
    (hne : ps ≠ []) (hf : ps.length ≤ fuel) :
    fetch_all_pages (mkApi ps) fuel none [] = some ps.flatten := by
  have h := fetch_all_pages_mkApi_aux ps fuel 0 none [] rfl
    (by cases ps with | nil => exact absurd rfl hne | cons a l => simp) (by omega)
  simpa using h

/-- The three-page mock of the pagination property: pages of sizes
50, 50 and 20, with has-next-page true, true, false. -/
def pages3 : List (List Nat) :=
  [List.range 50, (List.range 50).map (fun n => n + 50), (List.range 20).map (fun n => n + 100)]

/-- Witness for the pagination theorem: the 50/50/20 mock yields
exactly the 120 records 0..119 in page order. -/
theorem fetch_all_pages_spec_w :
    fetch_all_pages (mkApi pages3) 3 none [] = some (List.range 120) ∧
    (List.range 120).length = 120 := by
  constructor
  · rw [fetch_all_pages_spec pages3 3 (by decide) (by decide)]
    decide
  · decide

theorem foldl_bulk_insert_noop {W : Type} (env : SchedEnv W) (data : List SrcRec)
    (hdata : data.isEmpty = false) :
    ∀ (l : List String), (∀ t ∈ l, env.insertFails t = true) →
      ∀ ts, l.foldl (fun a t => bulk_insert env t data a) ts = ts := by
  intro l
  induction l with
  | nil => intro h ts; rfl
  | cons t rest ih =>
    intro h ts
    rw [List.foldl_cons]
    have hone : bulk_insert env t data ts = ts := by
      unfold bulk_insert
      rw [hdata, h t (by simp)]
      rfl
    rw [hone]
    exact ih (fun u hu => h u (List.mem_cons_of_mem t hu)) ts

/-- C9: a bulk-insert failure inside the loader is caught and only
logged: the staging task still returns success, the run record still
records staging_success = TRUE with the batch's high-water mark, while
every staging table of the entity has been truncated and left empty. -/
theorem bulk_insert_failure_masked {W : Type} (env : SchedEnv W) (s e : String) (db : DB)
    (data : List SrcRec)
    (hfresh : ∀ r ∈ db.runLog, r.run_id < db.nextId)
    (hstart : env.logStartFails s e = false)
    (hke : isKnownEntity e = true)
    (hex : ∀ sd, env.extract s e sd = Except.ok data)
    (hdata : data.isEmpty = false)
    (htr : ∀ t ∈ loader_tables s e, env.truncateFails t = false)
    (hins : ∀ t ∈ loader_tables s e, env.insertFails t = true) :
    ∃ db2, process_entity env s e db = Except.ok (true, db2) ∧
      (∀ t ∈ loader_tables s e, db2.tables t = []) ∧
      db2.runLog = db.runLog ++ [{ blankRecord db.nextId s e with staging_success := some true, source_updated_at := max_updated data }] := by
  have hany : (loader_tables s e).any env.truncateFails = false := by
    cases hx : (loader_tables s e).any env.truncateFails
    · rfl
    · obtain ⟨t, ht, htt⟩ := List.any_eq_true.mp hx
      rw [htr t ht] at htt
      cases htt
  have hload : load_entity_json env s e data (log_start db s e) =
      Except.ok (max_updated data,
        { log_start db s e with tables := fun t =>
            if (loader_tables s e).contains t then [] else (log_start db s e).tables t }) := by
    unfold load_entity_json truncate_staging
    rw [hany]
    show Except.ok (max_updated data, _) = _
    rw [foldl_bulk_insert_noop env data hdata (loader_tables s e) hins]
  have hpe : process_entity env s e db =
      Except.ok (true, log_staging_success
        { log_start db s e with tables := fun t =>
            if (loader_tables s e).contains t then [] else (log_start db s e).tables t }
        db.nextId (max_updated data)) := by
    unfold process_entity
    simp only [hstart, Bool.false_eq_true, if_false]
    split
    · split
      · rename_i err heq
        rw [hex _] at heq
        simp at heq
      · rename_i data2 heq
        rw [hex _] at heq
        injection heq with h
        subst h
        split
        · rename_i hie
          rw [hdata] at hie
          cases hie
        · split
          · rename_i err2 heq2
            rw [hload] at heq2
            simp at heq2
          · rename_i md heq2
            rw [hload] at heq2
            injection heq2 with h2
            subst h2
            rfl
    · rename_i hunk
      exact absurd hke hunk
  refine ⟨_, hpe, ?_, ?_⟩
  · intro t ht
    show (if (loader_tables s e).contains t = true then ([] : List SrcRec)
        else (log_start db s e).tables t) = []
    rw [if_pos (List.elem_iff.mpr ht)]
  · exact log_staged_runLog db s e (max_updated data) _ rfl hfresh

/-- The healthy environment except that every staging-table bulk insert
raises (and is swallowed by the loader's logging handler). -/
def envInsertFail : SchedEnv Nat :=
  { envBase with insertFails := fun _ => true }

/-- Witness for the masked-insert-failure theorem: the (retail, orders)
task with a failing bulk insert still reports success with the batch
watermark while its staging tables end up empty. -/
theorem bulk_insert_failure_masked_w :
    ∃ db2, process_entity envInsertFail "retail" "orders" db0 = Except.ok (true, db2) ∧
      (∀ t ∈ loader_tables "retail" "orders", db2.tables t = []) ∧
      db2.runLog = db0.runLog ++ [{ blankRecord db0.nextId "retail" "orders" with staging_success := some true, source_updated_at := max_updated [{ updatedAt := some 100, payload := 0 }] }] :=
  bulk_insert_failure_masked envInsertFail "retail" "orders" db0
    [{ updatedAt := some 100, payload := 0 }]
    (by intro r hr; simp [db0] at hr) rfl rfl (fun _ => rfl) rfl
    (by decide) (by decide)

/-- C10: when the extraction returns an empty batch, the loader is
skipped entirely — the staging tables are neither truncated nor
rewritten and keep whatever the previous run left in them — while the
task still records staging success with a NULL high-water mark. -/
theorem empty_batch_skips_loader {W : Type} (env : SchedEnv W) (s e : String) (db : DB)
    (hfresh : ∀ r ∈ db.runLog, r.run_id < db.nextId)
    (hstart : env.logStartFails s e = false)
    (hex : ∀ sd, env.extract s e sd = Except.ok ([] : List SrcRec)) :
    ∃ db2, process_entity env s e db = Except.ok (true, db2) ∧
      db2.tables = db.tables ∧
      db2.runLog = db.runLog ++ [{ blankRecord db.nextId s e with staging_success := some true, source_updated_at := none }] := by
  have hpe : process_entity env s e db =
      Except.ok (true, log_staging_success (log_start db s e) db.nextId none) := by
    unfold process_entity
    simp only [hstart, Bool.false_eq_true, if_false]
    split
    · split
      · rename_i err heq
        rw [hex _] at heq
        simp at heq
      · rename_i data2 heq
        rw [hex _] at heq
        injection heq with h
        subst h
        split
        · rfl
        · rename_i hie
          exact absurd rfl hie
    · rfl
  refine ⟨_, hpe, rfl, ?_⟩
  exact log_staged_runLog db s e none _ rfl hfresh

/-- The healthy environment except that every extraction returns an
empty batch. -/
def envEmptyExtract : SchedEnv Nat :=
  { envBase with extract := fun _ _ _ => Except.ok [] }

/-- Witness for the empty-batch theorem: staging tables untouched,
record staged with a NULL watermark. -/
theorem empty_batch_skips_loader_w :
    ∃ db2, process_entity envEmptyExtract "retail" "orders" db0 = Except.ok (true, db2) ∧
      db2.tables = db0.tables ∧
      db2.runLog = db0.runLog ++ [{ blankRecord db0.nextId "retail" "orders" with staging_success := some true, source_updated_at := none }] :=
  empty_batch_skips_loader envEmptyExtract "retail" "orders" db0
    (by intro r hr; simp [db0] at hr) rfl (fun _ => rfl)

/-- The nested-shopMoney input of the money-extraction property. -/
def exShop : Json :=
  Json.obj [("shopMoney", Json.obj [("amount", Json.str "12.50"), ("currencyCode", Json.str "USD")])]

/-- The bare-amount input of the money-extraction property. -/
def exBare : Json := Json.obj [("amount", Json.str "5")]

/-- C8: `get_money` returns 12.50 for the nested shopMoney input, 0 for
null, 5 for the bare-amount input; it accepts both shapes — a (truthy)
dict under shopMoney, or no truthy shopMoney at all with a bare amount
key — and in either shape an absent (`None`) or unparseable amount
yields 0 rather than an exception. -/
theorem get_money_spec :
    get_money exShop = Except.ok (25/2) ∧
    get_money Json.null = Except.ok 0 ∧
    get_money exBare = Except.ok 5 ∧
    (∀ kvs skvs, dictGet kvs "shopMoney" = Json.obj skvs → pyTruthy (Json.obj skvs) = true →
      get_money (Json.obj kvs) = Except.ok (safe_val (dictGet skvs "amount") pyFloat 0)) ∧
    (∀ kvs, pyTruthy (dictGet kvs "shopMoney") = false →
      get_money (Json.obj kvs) = Except.ok (safe_val (dictGet kvs "amount") pyFloat 0)) ∧
    (∀ j, pyFloat j = none → safe_val j pyFloat 0 = 0) := by
  refine ⟨?_, rfl, by decide, ?_, ?_, ?_⟩
  · have h : get_money exShop = Except.ok (mkRat 25 2) := by decide
    rw [h, Rat.mkRat_eq_div]; norm_num
  · intro kvs skvs hsm htr
    cases kvs with
    | nil => simp [dictGet] at hsm
    | cons k ks =>
      simp only [get_money, hsm, htr]
      simp [pyTruthy]
  · intro kvs hsm
    cases kvs with
    | nil => decide
    | cons k ks =>
      simp only [get_money, hsm]
      simp [pyTruthy]
  · intro j h
    cases j <;> simp_all [safe_val]

/-- Witness for the money-extraction theorem: a present but unparseable
nested amount evaluates to 0. -/
theorem get_money_spec_w :
    get_money (Json.obj [("shopMoney", Json.obj [("amount", Json.str "oops")])]) =
      Except.ok 0 := by
  rw [get_money_spec.2.2.2.1 [("shopMoney", Json.obj [("amount", Json.str "oops")])]
    [("amount", Json.str "oops")] rfl rfl]
  decide

theorem pgGe_refl (a : Option Timestamp) : pgGe a a = true := by
  cases a <;> simp [pgGe]

theorem pgGe_total (a b : Option Timestamp) : pgGe a b = true ∨ pgGe b a = true := by
  cases a <;> cases b <;> simp [pgGe]
  exact Int.le_total _ _

theorem pgGe_trans (a b c : Option Timestamp) (hab : pgGe a b = true) (hbc : pgGe b c = true) :
    pgGe a c = true := by
  cases a <;> cases b <;> cases c <;> simp_all [pgGe]
  exact Int.le_trans hbc hab

theorem selectTop_eq_none (rows : List (Option Timestamp)) :
    selectTop rows = none ↔ rows = [] := by
  cases rows with
  | nil => simp [selectTop]
  | cons v rest =>
    unfold selectTop
    cases selectTop rest <;> simp

theorem selectTop_mem (rows : List (Option Timestamp)) :
    ∀ m, selectTop rows = some m → m ∈ rows := by
  induction rows with
  | nil => intro m h; simp [selectTop] at h
  | cons v rest ih =>
    intro m h
    unfold selectTop at h
    cases hr : selectTop rest with
    | none =>
      rw [hr] at h
      simp at h
      simp [h]
    | some w =>
      rw [hr] at h
      simp at h
      split at h
      · simp [h]
      · exact List.mem_cons_of_mem v (h ▸ ih w hr)

theorem selectTop_ge (rows : List (Option Timestamp)) :
    ∀ m, selectTop rows = some m → ∀ u ∈ rows, pgGe m u = true := by
  induction rows with
  | nil => intro m h; simp [selectTop] at h
  | cons v rest ih =>
    intro m h u hu
    unfold selectTop at h
    cases hr : selectTop rest with
    | none =>
      rw [hr] at h
      simp at h
      have hrest : rest = [] := (selectTop_eq_none rest).mp hr
      subst hrest
      simp at hu
      subst h
      subst hu
      exact pgGe_refl u
    | some w =>
      rw [hr] at h
      simp at h
      rcases List.mem_cons.mp hu with hv | hrest
      · subst hv
        by_cases hg : pgGe u w = true
        · rw [if_pos hg] at h
          rw [← h]
          exact pgGe_refl u
        · rw [if_neg hg] at h
          rw [← h]
          rcases pgGe_total u w with h1 | h1
          · exact absurd h1 hg
          · exact h1
      · have hw := ih w hr u hrest
        by_cases hg : pgGe v w = true
        · rw [if_pos hg] at h
          rw [← h]
          exact pgGe_trans v w u hg hw
        · rw [if_neg hg] at h
          rw [← h]
          exact hw

/-- C4 (amended): `get_start_date` returns (now − 3 days) when no
SUCCESS record with a non-null high-water mark exists — and also when
any SUCCESS record with a NULL high-water mark exists, since `ORDER BY
source_updated_at DESC` sorts NULLs first and `LIMIT 1` then selects
the NULL row; only when every SUCCESS record carries a non-null mark
does the function return now − (2 + max(0, days(now − H))) days for
the maximal mark H. -/
theorem get_start_date_lookback (now : Timestamp) (log : List RunRecord) (store entity : String) :
    (successRows log store entity = [] →
      get_start_date now log store entity = now - 3 * SECONDS_PER_DAY) ∧
    (none ∈ successRows log store entity →
      get_start_date now log store entity = now - 3 * SECONDS_PER_DAY) ∧
    (∀ H : Timestamp, some H ∈ successRows log store entity →
      (∀ h : Timestamp, some h ∈ successRows log store entity → h ≤ H) →
      ¬ (none ∈ successRows log store entity) →
      get_start_date now log store entity =
        now - (2 + max 0 (Int.fdiv (now - H) SECONDS_PER_DAY)) * SECONDS_PER_DAY) := by
  refine ⟨?_, ?_, ?_⟩
  · intro h
    unfold get_start_date
    rw [h]
    rfl
  · intro hn
    cases hm : selectTop (successRows log store entity) with
    | none =>
      rw [(selectTop_eq_none _).mp hm] at hn
      simp at hn
    | some m =>
      have hge := selectTop_ge _ m hm none hn
      cases m with
      | none =>
        unfold get_start_date
        rw [hm]
      | some a => simp [pgGe] at hge
  · intro H hH hub hnn
    cases hm : selectTop (successRows log store entity) with
    | none =>
      rw [(selectTop_eq_none _).mp hm] at hH
      simp at hH
    | some m =>
      have hmem := selectTop_mem _ m hm
      cases m with
      | none => exact absurd hmem hnn
      | some a =>
        have h1 := selectTop_ge _ _ hm (some H) hH
        have h2 := hub a hmem
        have ha : a = H := le_antisymm h2 (by simpa [pgGe] using h1)
        subst ha
        unfold get_start_date
        rw [hm]

/-- A SUCCESS run record with a NULL high-water mark (empty batch run). -/
def cexRecNull : RunRecord :=
  { run_id := 1, store_name := "retail", entity_name := "orders", status := "SUCCESS",
    staging_success := some true, merge_success := some true,
    source_updated_at := none, notes := none }

/-- A SUCCESS run record whose high-water mark is day 10. -/
def cexRecLate : RunRecord :=
  { cexRecNull with run_id := 2, source_updated_at := some (10 * SECONDS_PER_DAY) }

/-- C4 counterexample: with a NULL-marked SUCCESS row alongside a
SUCCESS row whose mark H equals now, the code returns now − 3 days,
while the claimed formula for the most recent non-null mark gives
now − 2 days. -/
theorem get_start_date_claim_cex :
    get_start_date (10 * SECONDS_PER_DAY) [cexRecNull, cexRecLate] "retail" "orders" =
      10 * SECONDS_PER_DAY - 3 * SECONDS_PER_DAY ∧
    10 * SECONDS_PER_DAY - 3 * SECONDS_PER_DAY ≠
      10 * SECONDS_PER_DAY -
        (2 + max 0 (Int.fdiv (10 * SECONDS_PER_DAY - 10 * SECONDS_PER_DAY) SECONDS_PER_DAY)) *
          SECONDS_PER_DAY := by
  constructor
  · decide
  · norm_num [SECONDS_PER_DAY]

/-- Witness for the amended lookback theorem: a single SUCCESS record
with mark H = now yields now − 2 days. -/
theorem get_start_date_lookback_w :
    get_start_date (10 * SECONDS_PER_DAY) [cexRecLate] "retail" "orders" =
      10 * SECONDS_PER_DAY -
        (2 + max 0 (Int.fdiv (10 * SECONDS_PER_DAY - 10 * SECONDS_PER_DAY) SECONDS_PER_DAY)) *
          SECONDS_PER_DAY :=
  (get_start_date_lookback (10 * SECONDS_PER_DAY) [cexRecLate] "retail" "orders").2.2
    (10 * SECONDS_PER_DAY) (by decide)
    (by
      intro h hh
      rw [show successRows [cexRecLate] "retail" "orders" = [some (10 * SECONDS_PER_DAY)]
        from by decide] at hh
      simp at hh
      exact le_of_eq hh)
    (by decide)

/-- C7: at least 500ms separate two consecutive requests of one
extractor instance: the second issue time is at least 0.5s after the
first (given a non-negative response duration for the first request),
and when less than 0.5s has elapsed since the instance's previous
request the call sleeps exactly the remaining interval before issuing.
The throttling state is a field of the instance, so the suspension is
local to it. -/
theorem make_request_min_spacing (st : ExtractorState) (now1 dur1 now2 dur2 : ℚ)
    (hdur : 0 ≤ dur1) :
    (make_request st now1 dur1).1 + 1/2 ≤ (make_request (make_request st now1 dur1).2 now2 dur2).1 ∧
    (now1 - st.last_request_time < 1/2 →
      (make_request st now1 dur1).1 = now1 + (1/2 - (now1 - st.last_request_time))) := by
  unfold make_request
  split_ifs with h1 h2 h3 <;>
    refine ⟨?_, fun h => ?_⟩ <;> dsimp only <;>
    first
      | rfl
      | linarith

/-- Witness for the rate-limit theorem at a concrete instance: previous
completion at time 0, next call at time 0.1 with instantaneous
response, following call at time 0.2. -/
theorem make_request_min_spacing_w :
    (make_request { last_request_time := 0 } (1/10) 0).1 + 1/2 ≤
      (make_request (make_request { last_request_time := 0 } (1/10) 0).2 (2/10) 0).1 ∧
    ((1/10 : ℚ) - ({ last_request_time := 0 } : ExtractorState).last_request_time < 1/2 →
      (make_request { last_request_time := 0 } (1/10) 0).1 =
        1/10 + (1/2 - (1/10 - ({ last_request_time := 0 } : ExtractorState).last_request_time))) :=
  make_request_min_spacing { last_request_time := 0 } (1/10) 0 (2/10) 0 (by norm_num)

end ShopifyEtl
